import Mathlib

/-!
Verification of a 16-bit GPR CPU emulator and its two-pass assembler.

The development shallowly embeds the two core translation units:

* `src/src/gpr_cpu.cpp` — the `Bus` (flat word memory with silent
  out-of-range absorption), the instruction decode helpers, the flag
  update helpers and the fetch-decode-execute engine (`GPRCPU::step`,
  `GPRCPU::execute`).
* `src/assembler.cpp` — the tokenizer, number/register parsing
  (`std::stoul`/`std::stoi` semantics), the instruction encoders
  `encMOVI`/`encRR`, and the two passes of `assemble`.

Modelling conventions:

* Machine integers are `Nat` with explicit `% 65536` (or `% 2^64` for
  `unsigned long`) where wrap-around matters; bit operations use the
  corresponding `Nat` bitwise operators, exactly mirroring the C++
  shift/mask expressions.
* `std::string` values are `List Char`; the source text is given as its
  list of lines (what the `std::getline` loop enumerates).
* `std::stoul`/`std::stoi` may throw (uncaught in this program, so the
  process dies); a parse is therefore `Option`-valued and the assembler
  result type has a dedicated `crash` outcome for a propagated exception.
* The `FLAGS` bit mask (whose `FLAG_*` constants live in the header
  `gpr_cpu.h`, not part of the sources) is represented by three `Bool`
  fields; the implementation only ever reads or writes those three bits.
* `MEMORY_SIZE` (declared in the header) is kept as a parameter
  `memSize` of the bus and of `assemble`, as in `assemble`'s signature.
-/

namespace GPR

/-! ## Characters and strings (`assembler.cpp` helpers) -/

/-- Source `toUpperChar` from `assembler.cpp`: ASCII lowercase to uppercase. -/
def toUpperChar (c : Char) : Char :=
  if 'a' ≤ c ∧ c ≤ 'z' then Char.ofNat (c.toNat - 32) else c

/-- Source `toUpper` from `assembler.cpp`: uppercase every character. -/
def toUpper (s : List Char) : List Char := s.map toUpperChar

/-- The whitespace set `" \t\r\n"` used by `trim`. -/
def isWS (c : Char) : Bool := c == ' ' || c == '\t' || c == '\r' || c == '\n'

/-- Source `trim` from `assembler.cpp`: strip leading and trailing whitespace. -/
def trim (s : List Char) : List Char :=
  ((s.dropWhile isWS).reverse.dropWhile isWS).reverse

/-- Source `stripComment` from `assembler.cpp`: drop everything from the first
`;` on, then trim. -/
def stripComment (line : List Char) : List Char :=
  trim (line.takeWhile (fun c => c != ';'))

/-- Token delimiters of `tokenize`: whitespace and commas. -/
def isDelim (c : Char) : Bool :=
  c == ' ' || c == '\t' || c == '\r' || c == '\n' || c == ','

/-- Worker of `tokenize`; `cur` is the pending token, reversed. -/
def tokGo : List Char → List Char → List (List Char)
  | [], cur => if cur.isEmpty then [] else [cur.reverse]
  | c :: rest, cur =>
    if isDelim c then
      if cur.isEmpty then tokGo rest [] else cur.reverse :: tokGo rest []
    else tokGo rest (c :: cur)

/-- Source `tokenize` from `assembler.cpp`: split on whitespace/commas,
dropping empty tokens. -/
def tokenize (line : List Char) : List (List Char) := tokGo line []

/-! ## Numeric parsing (`std::stoul` with base 0, `std::stoi` base 10)

`parseNumber` calls `std::stoul(s, &idx, 0)` and masks with `0xFFFF`;
`parseReg` calls `std::stoi` on the text after the `R`.  Both C++
functions throw on an input with no digits (and on overflow); since the
program never catches those exceptions, a failed parse is modelled as
`none` (see `Res.crash` below). -/

def isDigitC (c : Char) : Bool := '0' ≤ c ∧ c ≤ '9'

def isOctDigitC (c : Char) : Bool := '0' ≤ c ∧ c ≤ '7'

def isHexDigitC (c : Char) : Bool :=
  ('0' ≤ c ∧ c ≤ '9') || ('a' ≤ c ∧ c ≤ 'f') || ('A' ≤ c ∧ c ≤ 'F')

/-- Numeric value of one (valid) digit character. -/
def digitVal (c : Char) : Nat :=
  if 'a' ≤ c ∧ c ≤ 'f' then c.toNat - 87
  else if 'A' ≤ c ∧ c ≤ 'F' then c.toNat - 55
  else c.toNat - 48

/-- Accumulate a digit string in the given base. -/
def digitsVal (base : Nat) (ds : List Char) : Nat :=
  ds.foldl (fun acc c => acc * base + digitVal c) 0

/-- The `isspace` characters skipped by `strtoul`/`strtol`. -/
def isSpaceC (c : Char) : Bool :=
  c == ' ' || c == '\t' || c == '\n' || c == '\r' ||
  c == '\x0b' || c == '\x0c'

/-- Split an optional leading sign, as `strtoul`/`strtol` do. -/
def splitSign : List Char → Bool × List Char
  | '-' :: r => (true, r)
  | '+' :: r => (false, r)
  | s => (false, s)

/-- The unsigned-long value parsed by `strtoul(s, _, 0)`: skip spaces,
optional sign, then a `0x`-hex, leading-`0` octal or decimal digit
string (maximal prefix; trailing garbage ignored since the caller
discards `idx`).  `none` when there is no digit to consume
(`std::invalid_argument`) or the accumulated value exceeds `ULONG_MAX`
(`std::out_of_range`). -/
def stoulRaw (s : List Char) : Option (Bool × Nat) :=
  let t := s.dropWhile isSpaceC
  let p := splitSign t
  match p.2 with
  | '0' :: c :: r =>
    if (c == 'x' || c == 'X') && (match r with | d :: _ => isHexDigitC d | [] => false) then
      some (p.1, digitsVal 16 (r.takeWhile isHexDigitC))
    else
      -- the subject sequence is the maximal octal-digit prefix
      -- (which is nonempty: it contains the leading '0')
      some (p.1, digitsVal 8 ((('0' : Char) :: c :: r).takeWhile isOctDigitC))
  | t1 =>
    let ds := t1.takeWhile isDigitC
    if ds.isEmpty then none else some (p.1, digitsVal 10 ds)

/-- Source `parseNumber` from `assembler.cpp`: `stoul(s, &idx, 0)` (a thrown
exception is `none`), negated modulo `2^64` for a leading `-`, then
truncated to 16 bits by the `& 0xFFFF` cast. -/
def parseNumber (s : List Char) : Option Nat :=
  match stoulRaw s with
  | none => none
  | some (neg, v) =>
    if 18446744073709551615 < v then none   -- out_of_range
    else some ((if neg then (18446744073709551616 - v) % 18446744073709551616 else v) % 65536)

/-- Semantics of `std::stoi(s, nullptr, 10)`: decimal `strtol`, `none` on no digits
or on a value outside `int`'s range. -/
def parseStoi (s : List Char) : Option Int :=
  let t := s.dropWhile isSpaceC
  let p := splitSign t
  let ds := p.2.takeWhile isDigitC
  if ds.isEmpty then none
  else
    let v : Int := (digitsVal 10 ds : Nat)
    let z : Int := if p.1 then -v else v
    if z < -2147483648 ∨ 2147483647 < z then none else some z

/-- Body of the paren-stripping loop of `parseReg`, with an explicit
iteration bound (each pass removes two characters, so `s.length` many
iterations always suffice to reach the loop's exit condition). -/
def stripParensGo : Nat → List Char → List Char
  | 0, s => s
  | fuel + 1, s =>
    if 2 ≤ s.length ∧ s.head? = some '(' ∧ s.getLast? = some ')' then
      stripParensGo fuel ((s.drop 1).dropLast)
    else s

/-- The paren-stripping loop of `parseReg`: `(R0)` → `R0`, repeatedly. -/
def stripParens (s : List Char) : List Char := stripParensGo s.length s

/-- Source `parseReg` from `assembler.cpp`.  `none` means the `std::stoi` call
threw (the program crashes); `some none` means "not a register"
(`false` in C++); `some (some r)` is a register index `0 ≤ r ≤ 7`. -/
def parseReg (s : List Char) : Option (Option Nat) :=
  let t := stripParens s
  if t.length < 2 ∨ (t.head? ≠ some 'R' ∧ t.head? ≠ some 'r') then some none
  else
    match parseStoi (t.drop 1) with
    | none => none
    | some n => if n < 0 ∨ 7 < n then some none else some (some n.toNat)

/-! ## Mnemonics and instruction encoding -/

/-- Source `getOpcode` from `assembler.cpp` (`-1` becomes `none`). -/
def getOpcode (m : List Char) : Option Nat :=
  if m = ['H','A','L','T'] then some 0
  else if m = ['M','O','V','I'] then some 1
  else if m = ['M','O','V'] then some 2
  else if m = ['L','O','A','D'] then some 3
  else if m = ['S','T','O','R','E'] then some 4
  else if m = ['A','D','D'] then some 5
  else if m = ['S','U','B'] then some 6
  else if m = ['A','N','D'] then some 7
  else if m = ['O','R'] then some 8
  else if m = ['X','O','R'] then some 9
  else if m = ['N','O','T'] then some 10
  else if m = ['S','H','L'] then some 11
  else if m = ['S','H','R'] then some 12
  else if m = ['J','M','P'] then some 13
  else if m = ['J','Z'] then some 14
  else if m = ['N','O','P'] then some 15
  else none

/-- Source `encMOVI` from `assembler.cpp`:
`(1u << 12) | ((rd & 7u) << 9) | (imm9 & 0x1FFu)`. -/
def encMOVI (rd imm9 : Nat) : Nat :=
  (1 <<< 12) ||| ((rd &&& 7) <<< 9) ||| (imm9 &&& 511)

/-- Source `encRR` from `assembler.cpp`:
`((op & 15u) << 12) | ((rd & 7u) << 9) | ((rs & 7u) << 6)`. -/
def encRR (op rd rs : Nat) : Nat :=
  ((op &&& 15) <<< 12) ||| ((rd &&& 7) <<< 9) ||| ((rs &&& 7) <<< 6)

/-! ## Instruction decoding (`GPRCPU::decode*` in `gpr_cpu.cpp`) -/

/-- Opcode bits 15–12: `(inst >> 12) & 0xF`. -/
def decodeOpcode (inst : Nat) : Nat := (inst >>> 12) &&& 15

/-- Destination register bits 11–9: `(inst >> 9) & 0x7`. -/
def decodeRd (inst : Nat) : Nat := (inst >>> 9) &&& 7

/-- Source register bits 8–6: `(inst >> 6) & 0x7`. -/
def decodeRs (inst : Nat) : Nat := (inst >>> 6) &&& 7

/-- 9-bit immediate, bits 8–0: `inst & 0x1FF`. -/
def decodeImm9 (inst : Nat) : Nat := inst &&& 511

/-! ## The label table (`std::map<std::string, uint16_t> labels`) -/

/-- The label table: uppercased name to bound address. -/
def Labels := List (List Char × Nat)

/-- Lookup `labels[name]` (guarded by `count` in the C++, so it never
inserts). -/
def lookupL : Labels → List Char → Option Nat
  | [], _ => none
  | (k, v) :: rest, key => if k = key then some v else lookupL rest key

/-- Assignment `labels[name] = pc`: insert or overwrite. -/
def insertL : Labels → List Char → Nat → Labels
  | [], k, v => [(k, v)]
  | (k', v') :: rest, k, v =>
    if k' = k then (k, v) :: rest else (k', v') :: insertL rest k v

/-- The `labels.count(x) ? labels[x] : parseNumber(x)` pattern used for
MOVI immediates, jump targets and register-register second operands. -/
def resolveOperand (labels : Labels) (s : List Char) : Option Nat :=
  match lookupL labels (toUpper s) with
  | some v => some v
  | none => parseNumber s

/-! ## Memory and assembly outcomes -/

/-- The word memory handed to `assemble` (`uint16_t* mem`).  Stores are
modelled as function updates at arbitrary `Nat` indices, so an
out-of-bounds store performed by the C++ (undefined behaviour there) is
visible as a write at an index `≥ memSize`. -/
def Mem := Nat → Nat

/-- Raw array store `mem[a] = v`. -/
def memWrite (m : Mem) (a v : Nat) : Mem :=
  fun i => if i = a then v else m i

/-- Outcome of an assembly computation.  `ok` carries the
updated state, `err` mirrors `AssembleResult{false, msg, lineNum}`, and
`crash` is an uncaught `std::stoul`/`std::stoi` exception escaping
`assemble`. -/
inductive Res (α : Type) where
  | ok : α → Res α
  | err : List Char → Nat → Res α
  | crash : Res α

/-- Message `".ORG requires address"`. -/
def orgNeedsMsg : List Char := (".ORG requires address").toList

/-- Message `".WORD requires value"`. -/
def wordNeedsMsg : List Char := (".WORD requires value").toList

/-- Message prefix `"Unknown: "`. -/
def unknownPfx : List Char := ("Unknown: ").toList

/-- Message `"Program too large"`. -/
def tooLargeMsg : List Char := ("Program too large").toList

/-- Message `"MOVI Rd, imm"`. -/
def moviNeedsMsg : List Char := ("MOVI Rd, imm").toList

/-- Message `"Invalid register"`. -/
def invalidRegMsg : List Char := ("Invalid register").toList

/-- Message `"JMP/JZ needs target"`. -/
def jmpNeedsMsg : List Char := ("JMP/JZ needs target").toList

/-- Message `"Jump target > 511 (MOVI 9-bit limit); use register"` — the
`JumpTargetTooLarge` error of the specification. -/
def jumpTooLargeMsg : List Char :=
  ("Jump target > 511 (MOVI 9-bit limit); use register").toList

/-- Message `"Needs operands"`. -/
def needsOperandsMsg : List Char := ("Needs operands").toList

/-- Message `"Invalid Rd"`. -/
def invalidRdMsg : List Char := ("Invalid Rd").toList

/-- Directive token `".ORG"`. -/
def orgTok : List Char := ['.', 'O', 'R', 'G']

/-- Directive token `".WORD"`. -/
def wordTok : List Char := ['.', 'W', 'O', 'R', 'D']

/-! ## Pass 1 (`assemble`, first loop): label collection -/

/-- One line of the first pass.  State is the label table and the
16-bit location counter `pc`. -/
def pass1Line (st : Labels × Nat) (lineNum : Nat) (line : List Char) :
    Res (Labels × Nat) :=
  let labels := st.1
  let pc := st.2
  let rest := stripComment line
  if rest = [] then .ok st
  else if rest.getLast? = some ':' then
    let name := trim rest.dropLast
    if name = [] then .ok st
    else .ok (insertL labels (toUpper name) pc, pc)
  else
    match tokenize rest with
    | [] => .ok st
    | cmd0 :: tokRest =>
      let tok := cmd0 :: tokRest
      let cmd := toUpper cmd0
      if cmd = orgTok then
        if tok.length < 2 then .err orgNeedsMsg lineNum
        else
          match parseNumber (tok.getD 1 []) with
          | none => .crash
          | some a => .ok (labels, a)
      else if cmd = wordTok then
        if tok.length = 1 then .err wordNeedsMsg lineNum
        else if tok.length = 2 then .ok (labels, (pc + 1) % 65536)
        else .ok st
      else
        match getOpcode cmd with
        | some _ => .ok (labels, (pc + 1) % 65536)
        | none => .err (unknownPfx ++ cmd) lineNum

/-- Fold of pass 1 over the remaining lines (`lineNum` is the number of
lines already consumed, so the next line is line `lineNum + 1`). -/
def pass1Go (labels : Labels) (pc lineNum : Nat) :
    List (List Char) → Res Labels
  | [] => .ok labels
  | l :: rest =>
    match pass1Line (labels, pc) (lineNum + 1) l with
    | .ok st => pass1Go st.1 st.2 (lineNum + 1) rest
    | .err m n => .err m n
    | .crash => .crash

/-- Pass 1 over a whole source (lines numbered from 1). -/
def pass1 (lines : List (List Char)) : Res Labels := pass1Go [] 0 0 lines

/-! ## Pass 2 (`assemble`, second loop): encoding and emission -/

/-- The `switch (op)` of pass 2, for a line that is a recognized
instruction and has already passed the `pc >= memSize` check.  Emits
the encoded word(s) with `mem[pc++] = …` and returns the new state.
Note the C++ switch body performs no further capacity check of its own
(it has no use of `memSize`), even when it emits two words. -/
def emitInstr (labels : Labels) (tok : List (List Char))
    (op : Nat) (mem : Mem) (pc lineNum : Nat) : Res (Mem × Nat) :=
  match op with
  | 0 => .ok (memWrite mem pc 0, (pc + 1) % 65536)
  | 1 =>
    if tok.length < 3 then .err moviNeedsMsg lineNum
    else
      match parseReg (tok.getD 1 []) with
      | none => .crash
      | some none => .err invalidRegMsg lineNum
      | some (some rd) =>
        match resolveOperand labels (tok.getD 2 []) with
        | none => .crash
        | some imm =>
          .ok (memWrite mem pc (encMOVI rd (imm &&& 511)), (pc + 1) % 65536)
  | 13 =>
    if tok.length < 2 then .err jmpNeedsMsg lineNum
    else
      match parseReg (tok.getD 1 []) with
      | none => .crash
      | some (some rs) => .ok (memWrite mem pc (encRR 13 0 rs), (pc + 1) % 65536)
      | some none =>
        match resolveOperand labels (tok.getD 1 []) with
        | none => .crash
        | some target =>
          if 511 < target then .err jumpTooLargeMsg lineNum
          else
            let mem1 := memWrite mem pc (encMOVI 7 target)
            let pc1 := (pc + 1) % 65536
            .ok (memWrite mem1 pc1 (encRR 13 0 7), (pc1 + 1) % 65536)
  | 14 =>
    if tok.length < 2 then .err jmpNeedsMsg lineNum
    else
      match parseReg (tok.getD 1 []) with
      | none => .crash
      | some (some rs) => .ok (memWrite mem pc (encRR 14 0 rs), (pc + 1) % 65536)
      | some none =>
        match resolveOperand labels (tok.getD 1 []) with
        | none => .crash
        | some target =>
          if 511 < target then .err jumpTooLargeMsg lineNum
          else
            let mem1 := memWrite mem pc (encMOVI 7 target)
            let pc1 := (pc + 1) % 65536
            .ok (memWrite mem1 pc1 (encRR 14 0 7), (pc1 + 1) % 65536)
  | 15 => .ok (memWrite mem pc 61440, (pc + 1) % 65536)
  | 2 | 3 | 4 | 5 | 6 | 7 | 8 | 9 | 10 | 11 | 12 =>
    if tok.length < 2 then .err needsOperandsMsg lineNum
    else
      match parseReg (tok.getD 1 []) with
      | none => .crash
      | some none => .err invalidRdMsg lineNum
      | some (some rd) =>
        if op = 10 ∨ op = 11 ∨ op = 12 then
          .ok (memWrite mem pc (encRR op rd rd), (pc + 1) % 65536)
        else if 3 ≤ tok.length then
          match parseReg (tok.getD 2 []) with
          | none => .crash
          | some (some rs) =>
            .ok (memWrite mem pc (encRR op rd rs), (pc + 1) % 65536)
          | some none =>
            match resolveOperand labels (tok.getD 2 []) with
            | none => .crash
            | some val =>
              .ok (memWrite mem pc (encRR op rd (val &&& 7)), (pc + 1) % 65536)
        else .ok (memWrite mem pc (encRR op rd 0), (pc + 1) % 65536)
  | _ => .ok (memWrite mem pc 0, (pc + 1) % 65536)

/-- One line of the second pass.  State is the memory image and the
16-bit emission cursor `pc`. -/
def pass2Line (memSize : Nat) (labels : Labels) (st : Mem × Nat)
    (lineNum : Nat) (line : List Char) : Res (Mem × Nat) :=
  let mem := st.1
  let pc := st.2
  let rest := stripComment line
  if rest = [] then .ok st
  else if rest.getLast? = some ':' then .ok st
  else
    match tokenize rest with
    | [] => .ok st
    | cmd0 :: tokRest =>
      let tok := cmd0 :: tokRest
      let cmd := toUpper cmd0
      if cmd = orgTok then
        if 2 ≤ tok.length then
          match parseNumber (tok.getD 1 []) with
          | none => .crash
          | some a => .ok (mem, a)
        else .ok st
      else if cmd = wordTok then
        if 2 ≤ tok.length then
          match parseNumber (tok.getD 1 []) with
          | none => .crash
          | some v1 =>
            if 3 ≤ tok.length then
              match parseNumber (tok.getD 2 []) with
              | none => .crash
              | some v2 =>
                .ok ((if v1 < memSize then memWrite mem v1 v2 else mem), pc)
            else
              .ok ((if pc < memSize then memWrite mem pc v1 else mem),
                   (pc + 1) % 65536)
        else .ok st
      else
        match getOpcode cmd with
        | none => .err (unknownPfx ++ cmd) lineNum
        | some op =>
          if memSize ≤ pc then .err tooLargeMsg lineNum
          else emitInstr labels tok op mem pc lineNum

/-- Fold of pass 2 over the remaining lines. -/
def pass2Go (memSize : Nat) (labels : Labels) (mem : Mem)
    (pc lineNum : Nat) : List (List Char) → Res (Mem × Nat)
  | [] => .ok (mem, pc)
  | l :: rest =>
    match pass2Line memSize labels (mem, pc) (lineNum + 1) l with
    | .ok st => pass2Go memSize labels st.1 st.2 (lineNum + 1) rest
    | .err m n => .err m n
    | .crash => .crash

/-- Source `assemble(source, mem, memSize)` from `assembler.cpp`: run pass 1,
then pass 2 from a reset cursor.  The source is given as its list of
lines. -/
def assemble (lines : List (List Char)) (memSize : Nat) (mem : Mem) :
    Res (Mem × Nat) :=
  match pass1 lines with
  | .ok labels => pass2Go memSize labels mem 0 0 lines
  | .err m n => .err m n
  | .crash => .crash

/-- Did assembly succeed (`res.ok` in C++)? -/
def resultOk : Res (Mem × Nat) → Bool
  | .ok _ => true
  | _ => false

/-- The memory image of a successful assembly (all-zero otherwise). -/
def resultMem : Res (Mem × Nat) → Mem
  | .ok st => st.1
  | _ => fun _ => 0

/-- The label table computed by pass 1 (empty if pass 1 failed). -/
def labelsOf : Res Labels → Labels
  | .ok l => l
  | _ => []

/-! ## The Bus (`gpr_cpu.cpp`, `Bus::read` / `Bus::write`) -/

/-- The bus: a fixed capacity (`MEMORY_SIZE`) and the word array. -/
structure Bus where
  memSize : Nat
  mem : Mem

/-- Source `Bus::read`: in-range addresses read the cell, out-of-range reads
return 0. -/
def busRead (bus : Bus) (a : Nat) : Nat :=
  if a < bus.memSize then bus.mem a else 0

/-- Source `Bus::write`: in-range addresses store the value, out-of-range
writes are dropped. -/
def busWrite (bus : Bus) (a v : Nat) : Bus :=
  if a < bus.memSize then { bus with mem := memWrite bus.mem a v } else bus

/-! ## CPU state and execution (`gpr_cpu.cpp`) -/

/-- The CPU state (`CPUState` in the header): eight 16-bit registers
(total function on the index, only indices 0–7 are ever used), the
16-bit `PC`, the three flag bits of `FLAGS` (Zero, Carry, Negative —
the only bits the implementation ever touches) and the halt latch. -/
structure CPUState where
  R : Nat → Nat
  PC : Nat
  flagZ : Bool
  flagC : Bool
  flagN : Bool
  halted : Bool

/-- Register file store `R[i] = v`. -/
def setR (R : Nat → Nat) (i v : Nat) : Nat → Nat :=
  fun j => if j = i then v else R j

/-- Source `GPRCPU::setResultFlags`: clear Z/C/N, then Z iff the result is 0
and N iff bit 15 of the result is set. -/
def setResultFlags (s : CPUState) (r : Nat) : CPUState :=
  { s with flagZ := decide (r = 0), flagC := false,
           flagN := decide (r &&& 32768 ≠ 0) }

/-- The `switch` of `GPRCPU::execute`, taking the already-decoded fields.
Cases follow the opcode table; `15` (NOP) and the default case leave
the state untouched. -/
def execOp (op rd rs imm9 : Nat) (s : CPUState) (bus : Bus) :
    CPUState × Bus :=
  match op with
  | 0 => ({ s with halted := true }, bus)
  | 1 => (setResultFlags { s with R := setR s.R rd imm9 } imm9, bus)
  | 2 =>
    let v := s.R rs
    (setResultFlags { s with R := setR s.R rd v } v, bus)
  | 3 =>
    let v := busRead bus (s.R rs)
    (setResultFlags { s with R := setR s.R rd v } v, bus)
  | 4 => (s, busWrite bus (s.R rs) (s.R rd))
  | 5 =>
    let a := s.R rd
    let b := s.R rs
    let r := (a + b) % 65536
    ({ s with R := setR s.R rd r,
              flagZ := decide (r = 0), flagC := decide (65535 < a + b),
              flagN := decide (r &&& 32768 ≠ 0) }, bus)
  | 6 =>
    let a := s.R rd
    let b := s.R rs
    let r := (a + 65536 - b) % 65536
    ({ s with R := setR s.R rd r,
              flagZ := decide (r = 0), flagC := decide (b ≤ a),
              flagN := decide (r &&& 32768 ≠ 0) }, bus)
  | 7 =>
    let v := s.R rd &&& s.R rs
    (setResultFlags { s with R := setR s.R rd v } v, bus)
  | 8 =>
    let v := s.R rd ||| s.R rs
    (setResultFlags { s with R := setR s.R rd v } v, bus)
  | 9 =>
    let v := s.R rd ^^^ s.R rs
    (setResultFlags { s with R := setR s.R rd v } v, bus)
  | 10 =>
    let v := s.R rs ^^^ 65535
    (setResultFlags { s with R := setR s.R rd v } v, bus)
  | 11 =>
    let val := s.R rd
    let v := (val <<< 1) % 65536
    ({ s with R := setR s.R rd v,
              flagZ := decide (v = 0), flagC := decide (val &&& 32768 ≠ 0),
              flagN := decide (v &&& 32768 ≠ 0) }, bus)
  | 12 =>
    let val := s.R rd
    let v := val >>> 1
    ({ s with R := setR s.R rd v,
              flagZ := decide (v = 0), flagC := decide (val &&& 1 ≠ 0),
              flagN := decide (v &&& 32768 ≠ 0) }, bus)
  | 13 => ({ s with PC := s.R rs }, bus)
  | 14 => (if s.flagZ then { s with PC := s.R rs } else s, bus)
  | _ => (s, bus)

/-- Source `GPRCPU::execute`: decode the four fields, then dispatch. -/
def execute (inst : Nat) (s : CPUState) (bus : Bus) : CPUState × Bus :=
  execOp (decodeOpcode inst) (decodeRd inst) (decodeRs inst)
    (decodeImm9 inst) s bus

/-- Source `GPRCPU::step`: if halted, return false with no effect; otherwise
fetch at `PC`, advance `PC` by one (16-bit wrap), execute, and return
`!halted`. -/
def step (s : CPUState) (bus : Bus) : Bool × CPUState × Bus :=
  if s.halted then (false, s, bus)
  else
    let inst := busRead bus s.PC
    let p := execute inst { s with PC := (s.PC + 1) % 65536 } bus
    (!p.1.halted, p.1, p.2)

/-- Iterate `step` (the body of `GPRCPU::run`) a fixed number of
times. -/
def stepN : Nat → CPUState → Bus → CPUState × Bus
  | 0, s, bus => (s, bus)
  | n + 1, s, bus =>
    let r := step s bus
    stepN n r.2.1 r.2.2

/-- The reset state (`GPRCPU::reset`), with a chosen initial flag
setting where a scenario needs one. -/
def initState (z : Bool) : CPUState :=
  { R := fun _ => 0, PC := 0, flagZ := z, flagC := false, flagN := false,
    halted := false }

/-! ## Helper lemmas -/

set_option maxRecDepth 4096 in
/-- Decoding an ADD (`opcode 5`) register-register encoding recovers its
fields, for in-range register indices. -/
lemma encRR5_decode (rd rs : Nat) (h1 : rd < 8) (h2 : rs < 8) :
    decodeOpcode (encRR 5 rd rs) = 5 ∧ decodeRd (encRR 5 rd rs) = rd ∧
    decodeRs (encRR 5 rd rs) = rs := by
  interval_cases rd <;> interval_cases rs <;> exact (by decide)

/-- Executing any single instruction halts the CPU exactly when the
opcode is 0 (HALT); no other opcode touches the halt latch. -/
lemma execOp_halted (op rd rs imm : Nat) (s : CPUState) (bus : Bus)
    (hop : op < 16) (h : s.halted = false) :
    ((execOp op rd rs imm s bus).1.halted = true) ↔ op = 0 := by
  interval_cases op <;>
    simp [execOp, setResultFlags, h] <;>
    split <;> simp [h]

/-- The decoded opcode always lies below 16 (a 4-bit field). -/
lemma decodeOpcode_lt (inst : Nat) : decodeOpcode inst < 16 := by
  have := Nat.and_le_right (n := inst >>> 12) (m := 15)
  simp only [decodeOpcode]
  omega

set_option maxRecDepth 100000 in
/-- Decoding the word `encMOVI 7 t` (the synthesized jump-expansion
MOVI) recovers opcode 1, register 7 and the immediate `t`, for every
9-bit `t`. -/
lemma movi7_decode : ∀ t : Fin 512,
    decodeOpcode (encMOVI 7 t.val) = 1 ∧ decodeRd (encMOVI 7 t.val) = 7 ∧
    decodeImm9 (encMOVI 7 t.val) = t.val := by decide

/-! ## Claim theorems -/

/-- C1 (code bug): pass 1 counts a `JZ label` line as one word while
pass 2 emits two, so the two passes disagree.  On the program
`JZ DONE / MOVI R0, 1 / DONE: / HALT` (memory capacity 16), pass 1
binds `DONE` to address 2, but pass 2 places the encoded `MOVI R0, 1`
itself at address 2 and `HALT` at 3 — `DONE` is not the address after
the MOVI.  Running the image with the Zero flag set does not skip the
MOVI: the synthesized `MOVI R7, 2` clears Zero, the `JZ R7` falls
through, and after 4 steps `R0 = 1` with the CPU halted. -/
theorem c1_divergence :
    lookupL (labelsOf (pass1 [("JZ DONE").toList, ("MOVI R0, 1").toList,
        ("DONE:").toList, ("HALT").toList])) (("DONE").toList) = some 2 ∧
    resultOk (assemble [("JZ DONE").toList, ("MOVI R0, 1").toList,
        ("DONE:").toList, ("HALT").toList] 16 (fun _ => 0)) = true ∧
    resultMem (assemble [("JZ DONE").toList, ("MOVI R0, 1").toList,
        ("DONE:").toList, ("HALT").toList] 16 (fun _ => 0)) 2 = encMOVI 0 1 ∧
    resultMem (assemble [("JZ DONE").toList, ("MOVI R0, 1").toList,
        ("DONE:").toList, ("HALT").toList] 16 (fun _ => 0)) 3 = 0 ∧
    (stepN 4 (initState true)
      { memSize := 16,
        mem := resultMem (assemble [("JZ DONE").toList, ("MOVI R0, 1").toList,
          ("DONE:").toList, ("HALT").toList] 16 (fun _ => 0)) }).1.R 0 = 1 ∧
    (stepN 4 (initState true)
      { memSize := 16,
        mem := resultMem (assemble [("JZ DONE").toList, ("MOVI R0, 1").toList,
          ("DONE:").toList, ("HALT").toList] 16 (fun _ => 0)) }).1.halted = true := by
  refine ⟨?_, ?_, ?_, ?_, ?_, ?_⟩ <;> decide

/-- C2: executing ADD with `R[rd] = a` and `R[rs] = b` (16-bit values,
register indices below 8) leaves `R[rd] = (a + b) % 65536`, sets Carry
iff the unwrapped sum exceeds 65535, and sets Zero/Negative from the
wrapped result (all three flags are functions of this operation alone). -/
theorem c2_add (s : CPUState) (bus : Bus) (rd rs a b : Nat)
    (hrd : rd < 8) (hrs : rs < 8)
    (ha : s.R rd = a) (hb : s.R rs = b) (ha16 : a < 65536) (hb16 : b < 65536) :
    ((execute (encRR 5 rd rs) s bus).1.R rd = (a + b) % 65536) ∧
    ((execute (encRR 5 rd rs) s bus).1.flagC = true ↔ 65535 < a + b) ∧
    ((execute (encRR 5 rd rs) s bus).1.flagZ = true ↔ (a + b) % 65536 = 0) ∧
    ((execute (encRR 5 rd rs) s bus).1.flagN = true ↔
      ((a + b) % 65536) &&& 32768 ≠ 0) := by
  obtain ⟨h1, h2, h3⟩ := encRR5_decode rd rs hrd hrs
  simp [execute, h1, h2, h3, execOp, setR, ha, hb]

/-- C2 witness: ADD on `R0 = R1 = 40000` wraps to 14464 and sets
Carry. -/
theorem c2_add_witness :
    ((execute (encRR 5 0 1) ⟨fun _ => 40000, 0, false, false, false, false⟩
        ⟨4, fun _ => 0⟩).1.R 0 = (40000 + 40000) % 65536) ∧
    ((execute (encRR 5 0 1) ⟨fun _ => 40000, 0, false, false, false, false⟩
        ⟨4, fun _ => 0⟩).1.flagC = true ↔ 65535 < 40000 + 40000) ∧
    ((execute (encRR 5 0 1) ⟨fun _ => 40000, 0, false, false, false, false⟩
        ⟨4, fun _ => 0⟩).1.flagZ = true ↔ (40000 + 40000) % 65536 = 0) ∧
    ((execute (encRR 5 0 1) ⟨fun _ => 40000, 0, false, false, false, false⟩
        ⟨4, fun _ => 0⟩).1.flagN = true ↔
      ((40000 + 40000) % 65536) &&& 32768 ≠ 0) :=
  c2_add ⟨fun _ => 40000, 0, false, false, false, false⟩ ⟨4, fun _ => 0⟩
    0 1 40000 40000 (by decide) (by decide) rfl rfl (by decide) (by decide)

set_option maxRecDepth 100000 in
/-- C3: encoder/decoder round trip — decoding `encRR op rd rs` yields
back `op`, `rd`, `rs` for every opcode 0–15 and registers 0–7, and
decoding `encMOVI rd imm9` yields opcode 1, `rd` and `imm9` for every
9-bit immediate. -/
theorem c3_roundtrip :
    (∀ (op : Fin 16) (rd rs : Fin 8),
      decodeOpcode (encRR op.val rd.val rs.val) = op.val ∧
      decodeRd (encRR op.val rd.val rs.val) = rd.val ∧
      decodeRs (encRR op.val rd.val rs.val) = rs.val) ∧
    (∀ (rd : Fin 8) (imm : Fin 512),
      decodeOpcode (encMOVI rd.val imm.val) = 1 ∧
      decodeRd (encMOVI rd.val imm.val) = rd.val ∧
      decodeImm9 (encMOVI rd.val imm.val) = imm.val) := by decide

/-- C4: `step` on a halted CPU returns false and changes nothing; on a
running CPU it fetches the word at `PC`, increments `PC` (16-bit wrap)
before executing it, and returns false exactly when that word's opcode
is HALT (0). -/
theorem c4_step (s : CPUState) (bus : Bus) :
    (s.halted = true → step s bus = (false, s, bus)) ∧
    (s.halted = false →
      (step s bus =
        (!(execute (busRead bus s.PC) { s with PC := (s.PC + 1) % 65536 } bus).1.halted,
         execute (busRead bus s.PC) { s with PC := (s.PC + 1) % 65536 } bus)) ∧
      ((step s bus).1 = false ↔ decodeOpcode (busRead bus s.PC) = 0)) := by
  constructor
  · intro h
    simp [step, h]
  · intro h
    have hlt := execOp_halted (decodeOpcode (busRead bus s.PC))
      (decodeRd (busRead bus s.PC)) (decodeRs (busRead bus s.PC))
      (decodeImm9 (busRead bus s.PC))
      { s with PC := (s.PC + 1) % 65536 } bus
      (decodeOpcode_lt (busRead bus s.PC)) h
    simp only [h] at hlt
    constructor
    · simp [step, h]
    · simp only [step, h, Bool.if_false_left, execute]
      simp [hlt]

/-- C4 witness: a halted CPU is left untouched, and a running CPU whose
next word is HALT (0) returns false from `step`. -/
theorem c4_step_witness :
    (step ⟨fun _ => 0, 5, false, false, false, true⟩ ⟨4, fun _ => 0⟩ =
      (false, ⟨fun _ => 0, 5, false, false, false, true⟩, ⟨4, fun _ => 0⟩)) ∧
    ((step (initState false) ⟨4, fun _ => 0⟩).1 = false ↔
      decodeOpcode (busRead ⟨4, fun _ => 0⟩ (initState false).PC) = 0) :=
  ⟨(c4_step ⟨fun _ => 0, 5, false, false, false, true⟩ ⟨4, fun _ => 0⟩).1 rfl,
   ((c4_step (initState false) ⟨4, fun _ => 0⟩).2 rfl).2⟩

/-- C5: a bus read outside capacity returns 0 and a bus write outside
capacity leaves the bus (hence every memory cell) unchanged, with no
error signalled; inside capacity a read returns the value last written
at that address. -/
theorem c5_bus (bus : Bus) (a v : Nat) :
    (bus.memSize ≤ a → busRead bus a = 0 ∧ busWrite bus a v = bus) ∧
    (a < bus.memSize → busRead (busWrite bus a v) a = v) := by
  constructor
  · intro h
    constructor
    · simp [busRead, Nat.not_lt.2 h]
    · simp [busWrite, Nat.not_lt.2 h]
  · intro h
    simp [busRead, busWrite, memWrite, h]

/-- C5 witness: capacity 4 — address 7 is absorbed, address 2 reads
back its written value. -/
theorem c5_bus_witness :
    ((4 : Nat) ≤ 7 → busRead ⟨4, fun _ => 0⟩ 7 = 0 ∧
      busWrite ⟨4, fun _ => 0⟩ 7 9 = ⟨4, fun _ => 0⟩) ∧
    ((2 : Nat) < 4 → busRead (busWrite ⟨4, fun _ => 0⟩ 2 9) 2 = 9) :=
  ⟨fun h => (c5_bus ⟨4, fun _ => 0⟩ 7 9).1 h,
   fun h => (c5_bus ⟨4, fun _ => 0⟩ 2 9).2 h⟩

/-- C6: a `JMP`/`JZ` line whose target is not a register and resolves
above 511 makes pass 2 fail with the `JumpTargetTooLarge` error carrying
that line's (1-based) line number; a target of at most 511 produces no
error — the line emits its two-word expansion instead. -/
theorem c6_jump_target (memSize : Nat) (labels : Labels) (mem : Mem)
    (pc lineNum target op : Nat) (line rest j t : List Char)
    (hstrip : stripComment line = rest) (hne : rest ≠ [])
    (hlast : rest.getLast? ≠ some (':' : Char)) (htok : tokenize rest = [j, t])
    (hcmd : toUpper j = ['J','M','P'] ∧ op = 13 ∨ toUpper j = ['J','Z'] ∧ op = 14)
    (hreg : parseReg t = some none)
    (hres : resolveOperand labels t = some target)
    (hpc : pc < memSize) :
    (511 < target →
      pass2Line memSize labels (mem, pc) lineNum line = .err jumpTooLargeMsg lineNum) ∧
    (target ≤ 511 →
      pass2Line memSize labels (mem, pc) lineNum line =
        .ok (memWrite (memWrite mem pc (encMOVI 7 target)) ((pc + 1) % 65536)
               (encRR op 0 7),
             ((pc + 1) % 65536 + 1) % 65536)) := by
  have hnpc : ¬ memSize ≤ pc := Nat.not_le.2 hpc
  rcases hcmd with ⟨hj, hop⟩ | ⟨hj, hop⟩ <;> subst hop <;>
    simp only [toUpper] at hj <;>
    constructor <;> intro hT <;>
      simp [pass2Line, hstrip, hne, hlast, htok, hj, emitInstr, hreg, hres,
            hnpc, hT, Nat.not_lt.2 hT, orgTok, wordTok, getOpcode,
            List.getD, toUpper]

/-- C6 witness: `JMP 600` on line 3 fails with the jump-target error at
line 3; `JMP 5` assembles into its two-word expansion. -/
theorem c6_jump_target_witness :
    (pass2Line 16 [] ((fun _ => 0), 0) 3 (("JMP 600").toList) =
      .err jumpTooLargeMsg 3) ∧
    (pass2Line 16 [] ((fun _ => 0), 0) 3 (("JMP 5").toList) =
      .ok (memWrite (memWrite (fun _ => 0) 0 (encMOVI 7 5)) ((0 + 1) % 65536)
             (encRR 13 0 7),
           ((0 + 1) % 65536 + 1) % 65536)) :=
  ⟨(c6_jump_target 16 [] (fun _ => 0) 0 3 600 13 (("JMP 600").toList)
      (("JMP 600").toList) ['J','M','P'] ['6','0','0'] (by decide) (by decide)
      (by decide) (by decide) (Or.inl ⟨by decide, rfl⟩) (by decide) (by decide)
      (by decide)).1 (by decide),
   (c6_jump_target 16 [] (fun _ => 0) 0 3 5 13 (("JMP 5").toList)
      (("JMP 5").toList) ['J','M','P'] ['5'] (by decide) (by decide)
      (by decide) (by decide) (Or.inl ⟨by decide, rfl⟩) (by decide) (by decide)
      (by decide)).2 (by decide)⟩

/-- C7: the two-operand `.WORD addr value` form pokes `value` at the
absolute address without advancing pass 1's counter or pass 2's cursor
(so the next instruction lands at the pre-directive cursor), while the
one-operand `.WORD value` form writes at the cursor and advances it by
exactly one in both passes. -/
theorem c7_word_directive (memSize : Nat) (labels : Labels) (mem : Mem)
    (pc lineNum a v : Nat) (line rest w A V : List Char)
    (hstrip : stripComment line = rest) (hne : rest ≠ [])
    (hlast : rest.getLast? ≠ some (':' : Char)) (hw : toUpper w = wordTok) :
    (tokenize rest = [w, A, V] → parseNumber A = some a →
     parseNumber V = some v → a < memSize →
      pass1Line (labels, pc) lineNum line = .ok (labels, pc) ∧
      pass2Line memSize labels (mem, pc) lineNum line =
        .ok (memWrite mem a v, pc)) ∧
    (tokenize rest = [w, V] → parseNumber V = some v → pc < memSize →
      pass1Line (labels, pc) lineNum line = .ok (labels, (pc + 1) % 65536) ∧
      pass2Line memSize labels (mem, pc) lineNum line =
        .ok (memWrite mem pc v, (pc + 1) % 65536)) := by
  simp only [toUpper] at hw
  constructor
  · intro htok hA hV haSz
    constructor
    · simp [pass1Line, hstrip, hne, hlast, htok, hw, orgTok, wordTok, toUpper]
    · simp [pass2Line, hstrip, hne, hlast, htok, hw, orgTok, wordTok, toUpper,
            List.getD, hA, hV, haSz]
  · intro htok hV hpc
    constructor
    · simp [pass1Line, hstrip, hne, hlast, htok, hw, orgTok, wordTok, toUpper]
    · simp [pass2Line, hstrip, hne, hlast, htok, hw, orgTok, wordTok, toUpper,
            List.getD, hV, hpc]

/-- C7 witness: `.WORD 0x50 0xFFFF` pokes 65535 at address 80 leaving
the cursor at 0 in both passes; `.WORD 7` writes 7 at the cursor and
advances it to 1 in both passes. -/
theorem c7_word_directive_witness :
    (pass1Line ([], 0) 1 ((".WORD 0x50 0xFFFF").toList) = .ok ([], 0) ∧
     pass2Line 256 [] ((fun _ => 0), 0) 1 ((".WORD 0x50 0xFFFF").toList) =
       .ok (memWrite (fun _ => 0) 80 65535, 0)) ∧
    (pass1Line ([], 0) 1 ((".WORD 7").toList) = .ok ([], (0 + 1) % 65536) ∧
     pass2Line 256 [] ((fun _ => 0), 0) 1 ((".WORD 7").toList) =
       .ok (memWrite (fun _ => 0) 0 7, (0 + 1) % 65536)) :=
  ⟨(c7_word_directive 256 [] (fun _ => 0) 0 1 80 65535
      ((".WORD 0x50 0xFFFF").toList) ((".WORD 0x50 0xFFFF").toList)
      ['.','W','O','R','D'] ['0','x','5','0'] ['0','x','F','F','F','F']
      (by decide) (by decide) (by decide) (by decide)).1
      (by decide) (by decide) (by decide) (by decide),
   (c7_word_directive 256 [] (fun _ => 0) 0 1 0 7
      ((".WORD 7").toList) ((".WORD 7").toList)
      ['.','W','O','R','D'] [] ['7']
      (by decide) (by decide) (by decide) (by decide)).2
      (by decide) (by decide) (by decide)⟩

/-- C8 counterexample: the program `0x10:` / `.WORD 0x10` declares a
label whose uppercased spelling `0X10` matches the `.WORD` operand
case-insensitively and is bound to address 0, yet pass 2 writes 16 (the
numeric parse of `0x10`) — not the label's resolved address 0 — so
`.WORD` does not try label resolution before numeric parsing. -/
theorem c8_counterexample :
    lookupL (labelsOf (pass1 [("0x10:").toList, (".WORD 0x10").toList]))
      (toUpper (("0x10").toList)) = some 0 ∧
    resultOk (assemble [("0x10:").toList, (".WORD 0x10").toList] 16
      (fun _ => 0)) = true ∧
    resultMem (assemble [("0x10:").toList, (".WORD 0x10").toList] 16
      (fun _ => 0)) 0 = 16 ∧
    (16 : Nat) ≠ 0 := by
  refine ⟨?_, ?_, ?_, ?_⟩ <;> decide

/-- C8 (amended): a one-operand `.WORD value` line is parsed purely as
a numeric literal — the written word is `parseNumber value` for every
label table whatsoever, so the label table is never consulted for
`.WORD` operands. -/
theorem c8_word_numeric (memSize : Nat) (labels : Labels) (mem : Mem)
    (pc lineNum v : Nat) (line rest w V : List Char)
    (hstrip : stripComment line = rest) (hne : rest ≠ [])
    (hlast : rest.getLast? ≠ some (':' : Char)) (htok : tokenize rest = [w, V])
    (hw : toUpper w = wordTok) (hV : parseNumber V = some v)
    (hpc : pc < memSize) :
    pass2Line memSize labels (mem, pc) lineNum line =
      .ok (memWrite mem pc v, (pc + 1) % 65536) := by
  simp only [toUpper] at hw
  simp [pass2Line, hstrip, hne, hlast, htok, hw, orgTok, wordTok, toUpper,
        List.getD, hV, hpc]

/-- C8 witness: `.WORD 0x10` writes 16 at the cursor even when a label
spelled `0X10` (bound to 0) exists in the table. -/
theorem c8_word_numeric_witness :
    pass2Line 16 [(['0','X','1','0'], 0)] ((fun _ => 0), 0) 2
      ((".WORD 0x10").toList) =
      .ok (memWrite (fun _ => 0) 0 16, (0 + 1) % 65536) :=
  c8_word_numeric 16 [(['0','X','1','0'], 0)] (fun _ => 0) 0 2 16
    ((".WORD 0x10").toList) ((".WORD 0x10").toList)
    ['.','W','O','R','D'] ['0','x','1','0']
    (by decide) (by decide) (by decide) (by decide) (by decide) (by decide)
    (by decide)

/-- C9: executing the two-word expansion `MOVI R7, t` / `JZ R7` first
recomputes the flags — the MOVI sets Zero iff the target `t` is 0 — so
for every nonzero 9-bit target the subsequent `JZ R7` falls through to
`PC + 2` regardless of the Zero flag on entry, leaving the bus and the
running state untouched. -/
theorem c9_jz (s : CPUState) (bus : Bus) (t : Nat)
    (ht : t < 512) (hh : s.halted = false)
    (h0 : busRead bus s.PC = encMOVI 7 t)
    (h1 : busRead bus ((s.PC + 1) % 65536) = encRR 14 0 7) :
    ((step s bus).2.1.flagZ = decide (t = 0)) ∧
    (t ≠ 0 →
      (stepN 2 s bus).1.PC = (s.PC + 2) % 65536 ∧
      (stepN 2 s bus).2 = bus ∧
      (stepN 2 s bus).1.halted = false) := by
  obtain ⟨d1, d2, d3⟩ := movi7_decode ⟨t, ht⟩
  have e1 : decodeOpcode (encRR 14 0 7) = 14 := by decide
  constructor
  · simp [step, hh, h0, execute, d1, d2, d3, execOp, setResultFlags]
  · intro ht0
    have hfz : decide (t = 0) = false := by simp [ht0]
    simp only [stepN]
    simp [step, hh, h0, h1, execute, d1, d2, d3, e1, execOp, setResultFlags, hfz]

/-- C9 witness: target 3, entered with the Zero flag set — the MOVI
clears Zero and the JZ falls through to PC 2. -/
theorem c9_jz_witness :
    ((step (initState true)
        ⟨8, fun i => if i = 0 then 7683 else if i = 1 then 57792 else 0⟩).2.1.flagZ =
      decide ((3 : Nat) = 0)) ∧
    ((stepN 2 (initState true)
        ⟨8, fun i => if i = 0 then 7683 else if i = 1 then 57792 else 0⟩).1.PC =
        ((initState true).PC + 2) % 65536 ∧
     (stepN 2 (initState true)
        ⟨8, fun i => if i = 0 then 7683 else if i = 1 then 57792 else 0⟩).2 =
        ⟨8, fun i => if i = 0 then 7683 else if i = 1 then 57792 else 0⟩ ∧
     (stepN 2 (initState true)
        ⟨8, fun i => if i = 0 then 7683 else if i = 1 then 57792 else 0⟩).1.halted =
        false) :=
  ⟨(c9_jz (initState true)
      ⟨8, fun i => if i = 0 then 7683 else if i = 1 then 57792 else 0⟩ 3
      (by decide) rfl (by decide) (by decide)).1,
   (c9_jz (initState true)
      ⟨8, fun i => if i = 0 then 7683 else if i = 1 then 57792 else 0⟩ 3
      (by decide) rfl (by decide) (by decide)).2 (by decide)⟩

/-- C10 (code bug): assembling `JMP 0` into a buffer of capacity 1
succeeds, yet the two-word jump expansion stores its second word at
index 1 = capacity — an out-of-bounds store (the single per-line
capacity check does not cover the second emitted word). -/
theorem c10_oob_store :
    resultOk (assemble [("JMP 0").toList] 1 (fun _ => 0)) = true ∧
    resultMem (assemble [("JMP 0").toList] 1 (fun _ => 0)) 1 = encRR 13 0 7 ∧
    encRR 13 0 7 ≠ 0 ∧ ¬ (1 < 1) := by
  refine ⟨?_, ?_, ?_, ?_⟩ <;> decide

end GPR
